import Mathlib

/-!
Verification of the Smartlogic SDK client (Financial-Times/smartlogic-sdk).

The development shallowly embeds the two Go source files of the repository:

* `concept.go` — the `Concept` domain value and its custom JSON-LD
  serialization (`Concept.MarshalJSON` via the helper struct `inputConcept`).
* `client.go` — the `Client`, token acquisition (`getAccessToken`),
  the authorized-request loop (`makeAuthorizedRequest`) and the three
  operation methods (`CreateConcept`, `AddConceptMetadataField`,
  `GetConceptsWithCustomMetadata`).

External collaborators (the HTTP transport and the service) are modelled as
oracles: an `Env` gives, for every data-request attempt and for every token
exchange, the response the transport would deliver (`none` = transport
failure).  JSON bodies of responses are modelled as already-parsed JSON
values (`none` = a body that is not valid JSON), since the JSON decoding
primitives are external to the repository.  Go version-specific encoding
behaviour (`encoding/json` string escaping with HTML escaping on,
`omitempty` semantics, map-key sorting, `net/url.QueryEscape`) is embedded
byte-faithfully below.
-/

namespace Smartlogic

/-! ## JSON values (parsed bodies) -/

/-- A parsed JSON document, used to model response bodies that Go code decodes
with `encoding/json`. -/
inductive JsonValue where
  | null
  | bool (b : Bool)
  | num (n : Int)
  | str (s : String)
  | arr (xs : List JsonValue)
  | obj (fields : List (String × JsonValue))

/-! ## Go string/URL encoding primitives -/

/-- Lowercase hexadecimal digit, as used by Go `encoding/json` (`var hex =
"0123456789abcdef"`). -/
def hexDigitLower (n : Nat) : Char :=
  if n < 10 then Char.ofNat (48 + n) else Char.ofNat (87 + n)

/-- Uppercase hexadecimal digit, as used by Go `net/url` percent-encoding
(`const upperhex = "0123456789ABCDEF"`). -/
def hexDigitUpper (n : Nat) : Char :=
  if n < 10 then Char.ofNat (48 + n) else Char.ofNat (55 + n)

/-- UTF-8 encoding of a unicode code point, as a list of byte values. -/
def utf8Bytes (n : Nat) : List Nat :=
  if n < 0x80 then [n]
  else if n < 0x800 then [0xC0 + n / 0x40, 0x80 + n % 0x40]
  else if n < 0x10000 then
    [0xE0 + n / 0x1000, 0x80 + (n / 0x40) % 0x40, 0x80 + n % 0x40]
  else
    [0xF0 + n / 0x40000, 0x80 + (n / 0x1000) % 0x40,
      0x80 + (n / 0x40) % 0x40, 0x80 + n % 0x40]

/-- Percent-encoding of one byte: `%XX` with uppercase hex (Go
`net/url.escape`). -/
def percentByte (b : Nat) : String :=
  "%" ++ String.singleton (hexDigitUpper (b / 16)) ++ String.singleton (hexDigitUpper (b % 16))

/-- Go `net/url.QueryEscape` on a single character: ASCII alphanumerics and
`-_.~` are kept, space becomes `+`, every other byte of the character's UTF-8
encoding is percent-encoded. -/
def queryEscapeChar (c : Char) : String :=
  if c.isAlphanum ∨ c = '-' ∨ c = '_' ∨ c = '.' ∨ c = '~' then String.singleton c
  else if c = ' ' then "+"
  else String.join ((utf8Bytes c.toNat).map percentByte)

/-- Go `net/url.QueryEscape`.  Go escapes per byte; escaping per character of
a valid-UTF-8 string is byte-identical. -/
def queryEscape (s : String) : String :=
  String.join (s.data.map queryEscapeChar)

/-- Go `encoding/json` escaping of one character inside a string literal
(HTML escaping on, as used by `json.Marshal`): `"` and `\` are
backslash-escaped, `\n`, `\r`, `\t` use short escapes, other control
characters and `<`, `>`, `&` become `\u00XX` (lowercase hex), U+2028 and
U+2029 become ` `/` `, everything else is copied. -/
def goEscapeChar (c : Char) : String :=
  if c = '\"' then "\\\""
  else if c = '\\' then "\\\\"
  else if c = '\n' then "\\n"
  else if c = '\r' then "\\r"
  else if c = '\t' then "\\t"
  else if c.toNat < 0x20 ∨ c = '<' ∨ c = '>' ∨ c = '&' then
    "\\u00" ++ String.singleton (hexDigitLower (c.toNat / 16))
      ++ String.singleton (hexDigitLower (c.toNat % 16))
  else if c.toNat = 0x2028 then "\\u2028"
  else if c.toNat = 0x2029 then "\\u2029"
  else String.singleton c

/-- Go `encoding/json` rendering of a string: double quotes around the
escaped characters. -/
def goQuote (s : String) : String :=
  "\"" ++ String.join (s.data.map goEscapeChar) ++ "\""

/-- Comma-separated concatenation, the shape `encoding/json` produces between
object members and array elements. -/
def joinComma : List String → String
  | [] => ""
  | [x] => x
  | x :: y :: xs => x ++ "," ++ joinComma (y :: xs)

/-- One `"key":value` member of a JSON object. -/
def renderEntry (kv : String × String) : String :=
  goQuote kv.1 ++ ":" ++ kv.2

/-- A JSON object built from already-rendered member values, keys in the
given order (for Go structs: declaration order). -/
def renderObj (fs : List (String × String)) : String :=
  "\x7b" ++ joinComma (fs.map renderEntry) ++ "\x7d"

/-- A JSON array built from already-rendered elements. -/
def renderArr (xs : List String) : String :=
  "[" ++ joinComma xs ++ "]"

/-- Go rendering of a JSON boolean. -/
def renderBool (b : Bool) : String :=
  if b then "true" else "false"

/-- Byte-wise (lexicographic) Go string comparison on char lists; on valid
UTF-8, byte order and code-point order coincide. -/
def charListLt : List Char → List Char → Bool
  | [], [] => false
  | [], _ :: _ => true
  | _ :: _, [] => false
  | a :: as, b :: bs =>
    if a.toNat < b.toNat then true
    else if b.toNat < a.toNat then false
    else charListLt as bs

/-- Go's `<` on strings (byte-wise), used by `sort.Strings` on map keys. -/
def goStringLt (a b : String) : Bool :=
  charListLt a.data b.data

/-- Insertion into a key-sorted association list. -/
def insertSortedByKey (kv : String × String) : List (String × String) → List (String × String)
  | [] => [kv]
  | h :: t => if goStringLt kv.1 h.1 then kv :: h :: t else h :: insertSortedByKey kv t

/-- Key-sorting of an association list, as Go `encoding/json` sorts the keys
of a map before marshalling it. -/
def sortByKey : List (String × String) → List (String × String)
  | [] => []
  | kv :: t => insertSortedByKey kv (sortByKey t)

/-- Go `json.Marshal` of a `map[string]string` value: keys sorted, keys and
values rendered as JSON strings. -/
def marshalStringMap (l : List (String × String)) : String :=
  renderObj ((sortByKey l).map (fun kv => (kv.1, goQuote kv.2)))

/-! ## concept.go — the Concept model and its serialization -/

/-- Structure `Concept` from `concept.go`.  Go field `Type` is rendered `type` here
(`Type` is a Lean keyword).  -/
structure Concept where
  PrefLabel : String := ""
  AltLabels : List String := []
  Description : String := ""
  type : String := ""
  SchemaObject : String := ""
  /-- Modelled from the spec: the broader-concept URI field of `Concept`,
  referenced by `CreateConcept`'s validation in `client.go` but missing from
  the provided `concept.go`; per the spec it is a plain string that the
  serialization never reads. -/
  Broader : String := ""
  TMEIdentifier : String := ""
  FactsetIdentifier : String := ""
  WikidataIdentifier : String := ""
  IsDeprecated : Bool := false

/-- Struct `wordValue` from `concept.go`: `@value`, `@language,omitempty`. -/
structure wordValue where
  Value : String
  Language : String

/-- Struct `conceptValue` from `concept.go`: `@value`. -/
structure conceptValue where
  Value : String

/-- Struct `uriValue` from `concept.go`: `@value`, `@type` (no omitempty). -/
structure uriValue where
  Value : String
  type : String

/-- Struct `conceptID` from `concept.go`: `@id`. -/
structure conceptID where
  ID : String

/-- Struct `conceptLabel` from `concept.go`: `skosxl:literalForm,omitempty`,
`@type,omitempty`. -/
structure conceptLabel where
  LiteralForm : List wordValue
  type : List String

/-- Struct `inputConcept` from `concept.go`, the helper struct matching the
Smartlogic input format; field order is the Go declaration order, which fixes
the serialized key order. -/
structure inputConcept where
  PrefLabel : List conceptLabel
  AltLabels : List conceptLabel
  Description : List wordValue
  type : List String
  TopConceptOf : conceptID
  TMEIdentifier : List conceptValue
  FactsetIdentifier : List conceptValue
  WikidataIdentifier : List uriValue
  IsDeprecated : List Bool

def wordValue.render (w : wordValue) : String :=
  renderObj ([("@value", goQuote w.Value)]
    ++ (if w.Language = "" then [] else [("@language", goQuote w.Language)]))

def conceptValue.render (v : conceptValue) : String :=
  renderObj [("@value", goQuote v.Value)]

def uriValue.render (v : uriValue) : String :=
  renderObj [("@value", goQuote v.Value), ("@type", goQuote v.type)]

def conceptID.render (x : conceptID) : String :=
  renderObj [("@id", goQuote x.ID)]

def conceptLabel.render (l : conceptLabel) : String :=
  renderObj
    ((if l.LiteralForm.isEmpty then []
      else [("skosxl:literalForm", renderArr (l.LiteralForm.map wordValue.render))])
    ++ (if l.type.isEmpty then [] else [("@type", renderArr (l.type.map goQuote))]))

/-- The members of the JSON object `json.Marshal` produces for an
`inputConcept`: Go struct fields in declaration order, a slice field with
`omitempty` dropped when empty.  `TopConceptOf` carries `omitempty` in the
source but is a struct value, which Go `omitempty` never drops, so it is
always emitted. -/
def inputConcept.fieldList (i : inputConcept) : List (String × String) :=
  (if i.PrefLabel.isEmpty then []
    else [("skosxl:prefLabel", renderArr (i.PrefLabel.map conceptLabel.render))])
  ++ (if i.AltLabels.isEmpty then []
    else [("skosxl:altLabel", renderArr (i.AltLabels.map conceptLabel.render))])
  ++ (if i.Description.isEmpty then []
    else [("http://www.ft.com/ontology/description", renderArr (i.Description.map wordValue.render))])
  ++ (if i.type.isEmpty then [] else [("@type", renderArr (i.type.map goQuote))])
  ++ [("skos:topConceptOf", i.TopConceptOf.render)]
  ++ (if i.TMEIdentifier.isEmpty then []
    else [("http://www.ft.com/ontology/TMEIdentifier", renderArr (i.TMEIdentifier.map conceptValue.render))])
  ++ (if i.FactsetIdentifier.isEmpty then []
    else [("http://www.ft.com/ontology/factsetIdentifier", renderArr (i.FactsetIdentifier.map conceptValue.render))])
  ++ (if i.WikidataIdentifier.isEmpty then []
    else [("http://www.ft.com/ontology/wikidataIdentifier", renderArr (i.WikidataIdentifier.map uriValue.render))])
  ++ (if i.IsDeprecated.isEmpty then []
    else [("http://www.ft.com/ontology/isDeprecated", renderArr (i.IsDeprecated.map renderBool))])

/-- The `inputConcept` value `Concept.MarshalJSON` builds: precisely the
construction in `concept.go` (unconditional pref label / type list / scheme
reference, `Description` and the three identifiers only when non-empty, alt
labels appended from the loop, `IsDeprecated` only when true). -/
def Concept.toInput (c : Concept) : inputConcept :=
  { PrefLabel := [{ LiteralForm := [{ Value := c.PrefLabel, Language := "en" }],
                    type := ["skosxl:Label"] }]
    AltLabels := c.AltLabels.map (fun al =>
      { LiteralForm := [{ Value := al, Language := "en" }], type := ["skosxl:Label"] })
    Description := if c.Description = "" then [] else [{ Value := c.Description, Language := "en" }]
    type := ["skos:Concept", c.type]
    TopConceptOf := { ID := c.SchemaObject }
    TMEIdentifier := if c.TMEIdentifier = "" then [] else [{ Value := c.TMEIdentifier }]
    FactsetIdentifier := if c.FactsetIdentifier = "" then [] else [{ Value := c.FactsetIdentifier }]
    WikidataIdentifier :=
      if c.WikidataIdentifier = "" then []
      else [{ Value := c.WikidataIdentifier, type := "xsd:anyURI" }]
    IsDeprecated := if c.IsDeprecated then [c.IsDeprecated] else [] }

/-- The key/value members of the wire document of a `Concept`. -/
def conceptWireFields (c : Concept) : List (String × String) :=
  (Concept.toInput c).fieldList

/-- Method `Concept.MarshalJSON` from `concept.go`.  The final `json.Marshal(input)`
cannot fail for `inputConcept` (strings, slices and bools only), so the
result is always `Except.ok`. -/
def Concept.MarshalJSON (c : Concept) : Except String String :=
  Except.ok (renderObj (conceptWireFields c))

/-! ## client.go — client state, token acquisition, authorized requests -/

/-- Constant `MaxAccessFailures` from `client.go`. -/
def MaxAccessFailures : Nat := 3

/-- Constant `ConceptURIPrefix` from `client.go`. -/
def ConceptURIPrefix : String := "http://www.ft.com/thing"

/-- Constant `MetadataFieldPrefix` from `client.go`. -/
def MetadataFieldPrefix : String := "http://www.ft.com/ontology"

/-- A `net/url.URL` reduced to the two components this client manipulates:
the part printed before the query (scheme, host and path) and the raw query
string.  `URL.toString` mirrors `url.URL.String`. -/
structure URL where
  base : String
  rawQuery : String

def URL.toString (u : URL) : String :=
  if u.rawQuery = "" then u.base else u.base ++ "?" ++ u.rawQuery

/-- An HTTP response as delivered by the external transport: the status code
and the body, already parsed as JSON (`none` when the body is not valid
JSON).  The data endpoints of this client read nothing else from a
response. -/
structure Response where
  status : Nat
  body : Option JsonValue

/-- A request issued through `makeAuthorizedRequest`: the method, the URL,
the bearer token attached in the `Authorization` header, and the body bytes
the attempt actually carries — the contents of the caller's `io.Reader` at
the moment `http.NewRequestWithContext` reads it, which sending the attempt
drains.  (The constant `Content-Type: application/ld+json` header is set on
every such request and is not recorded.) -/
structure HRequest where
  method : String
  url : URL
  bearer : String
  body : String

/-- The external world: for the n-th data-request attempt of an operation
and for the n-th token exchange, the response the transport delivers
(`none` = the HTTP exchange itself failed). -/
structure Env where
  dataResp : Nat → Option Response
  tokenResp : Nat → Option Response

/-- Struct `Client` from `client.go`.  The `httpClient` field is the external
transport (part of `Env` here); the remaining five fields are modelled
directly. -/
structure Client where
  baseAPIURL : URL
  apiTokenURL : URL
  apiKey : String
  model : String
  accessToken : String

/-- The form body `grant_type=apikey&key=<apiKey>` built by
`getAccessToken` (`url.Values.Encode` sorts the two keys and query-escapes
the values). -/
def tokenRequestBody (apiKey : String) : String :=
  "grant_type=apikey&key=" ++ queryEscape apiKey

/-- Go decoding of the fields of a JSON object into
`struct { AccessToken string `json:"access_token"` }`: fields are processed
in order, a later `access_token` member overwrites an earlier one, `null`
leaves the value untouched, a non-string value is a decode error, unknown
keys are ignored. -/
def decodeTokenFields : List (String × JsonValue) → String → Except String String
  | [], acc => Except.ok acc
  | (k, v) :: rest, acc =>
    if k = "access_token" then
      match v with
      | JsonValue.str s => decodeTokenFields rest s
      | JsonValue.null => decodeTokenFields rest acc
      | _ => Except.error "json: cannot unmarshal value into field access_token of type string"
    else decodeTokenFields rest acc

/-- Decoding a response body into the access-token struct: the body must be
valid JSON; a JSON object is decoded field-wise; the top-level literal
`null` is a no-op for Go's decoder, succeeding with the struct's zero value
(an empty token); any other top-level value is a decode error. -/
def decodeTokenBody : Option JsonValue → Except String String
  | none => Except.error "failed decoding access token in response body"
  | some (JsonValue.obj fs) => decodeTokenFields fs ""
  | some JsonValue.null => Except.ok ""
  | some _ => Except.error "failed decoding access token in response body"

/-- Method `getAccessToken` from `client.go`, as a function of the token-endpoint
response: transport failure, a non-200 status, or an undecodable body are
errors; otherwise the decoded `access_token` value is returned. -/
def getAccessToken : Option Response → Except String String
  | none => Except.error "failed making access token request"
  | some resp =>
    if resp.status ≠ 200 then
      Except.error ("access token request returned http status " ++ toString resp.status)
    else decodeTokenBody resp.body

/-- Constructor `NewClient` from `client.go`: derives the API and token URLs from the
base cloud URL (Go applies `path.Join` on the path component; for the clean
inputs at hand that is plain concatenation), then synchronously acquires an
initial token; a token failure aborts construction with no client. -/
def NewClient (tokenR : Option Response) (baseCloudURL : URL)
    (clientID apiKey model : String) : Except String Client :=
  let baseAPIURL : URL :=
    { base := baseCloudURL.base ++ "/sw/client/" ++ clientID ++ "/api"
      rawQuery := baseCloudURL.rawQuery }
  let apiTokenURL : URL :=
    { base := baseCloudURL.base ++ "/token", rawQuery := baseCloudURL.rawQuery }
  match getAccessToken tokenR with
  | Except.error e => Except.error e
  | Except.ok tok =>
    Except.ok { baseAPIURL := baseAPIURL, apiTokenURL := apiTokenURL,
                apiKey := apiKey, model := model, accessToken := tok }

/-- The evolving state of one operation call: the client (whose
`accessToken` is the only mutable field), the data requests issued so far,
and the number of token exchanges performed. -/
structure RunState where
  client : Client
  requests : List HRequest
  tokenCalls : Nat

/-- The loop body of `makeAuthorizedRequest` from `client.go`, with the
remaining loop iterations as fuel (`accessFailures` runs from 0 to
`MaxAccessFailures - 1`, so the loop starts with `MaxAccessFailures` fuel):
each iteration issues the request with the current token; a transport
failure is returned wrapped; a 401 triggers a token exchange — on exchange
failure the call aborts with the fatal auth error, on success the stored
token is replaced and the loop retries; any non-401 response is returned
as-is.  Falling off the loop yields the fatal auth error.

The `body` argument of the Go function is an `io.Reader` (both POST callers
pass a `*bytes.Buffer`), and each iteration calls
`http.NewRequestWithContext` on the SAME reader: the request built in an
iteration carries whatever bytes remain in the reader, and sending the
attempt drains it.  The reader's remaining bytes are therefore threaded
through the recursion: the first attempt carries the caller's body bytes,
and every retried attempt is built from the drained reader and carries an
empty body. -/
def makeAuthorizedRequestLoop (env : Env) (method : String) (reqURL : URL) :
    Nat → String → RunState → RunState × Except String Response
  | 0, _, st => (st, Except.error "failed making request with valid access token")
  | fuel + 1, bodyBytes, st =>
    let req : HRequest :=
      { method := method, url := reqURL, bearer := st.client.accessToken, body := bodyBytes }
    let st1 : RunState := { st with requests := st.requests ++ [req] }
    match env.dataResp st.requests.length with
    | none => (st1, Except.error "failed making authorized request")
    | some resp =>
      if resp.status = 401 then
        match getAccessToken (env.tokenResp st.tokenCalls) with
        | Except.error _ =>
          ({ st1 with tokenCalls := st1.tokenCalls + 1 },
            Except.error "failed making request with valid access token")
        | Except.ok tok =>
          makeAuthorizedRequestLoop env method reqURL fuel ""
            { client := { st1.client with accessToken := tok }
              requests := st1.requests
              tokenCalls := st1.tokenCalls + 1 }
      else
        (st1, Except.ok resp)

/-- Method `makeAuthorizedRequest` from `client.go`, started on a fresh trace
with the caller's body bytes still unread. -/
def makeAuthorizedRequest (env : Env) (c : Client) (method : String) (reqURL : URL)
    (body : String) : RunState × Except String Response :=
  makeAuthorizedRequestLoop env method reqURL MaxAccessFailures body
    { client := c, requests := [], tokenCalls := 0 }

/-! ## client.go — operation methods -/

/-- The request URL `CreateConcept` builds:
`<baseAPI>?path=task:<model>:<task>/skos:Concept/rdf:instance` (the path
query parameter is deliberately left unescaped). -/
def createConceptURL (c : Client) (task : String) : URL :=
  { base := c.baseAPIURL.base
    rawQuery := "path=" ++ ("task:" ++ c.model ++ ":" ++ task ++ "/skos:Concept/rdf:instance") }

/-- Method `CreateConcept` from `client.go`: field validation (in source order)
before any network activity, then serialize, then submit through
`makeAuthorizedRequest`; only statuses 200 and 201 are success. -/
def CreateConcept (env : Env) (c : Client) (concept : Concept) (task : String) :
    RunState × Option String :=
  if concept.PrefLabel = "" then
    (⟨c, [], 0⟩, some "input concept should have prefLaber defined")
  else if concept.SchemaObject = "" ∧ concept.Broader = "" then
    (⟨c, [], 0⟩, some "input concept should have either schema or broader relation defined")
  else if concept.type = "" then
    (⟨c, [], 0⟩, some "input concept should have type defined")
  else
    match Concept.MarshalJSON concept with
    | Except.error e => (⟨c, [], 0⟩, some ("failed json encoding concept: " ++ e))
    | Except.ok body =>
      match makeAuthorizedRequest env c "POST" (createConceptURL c task) body with
      | (st, Except.error e) => (st, some ("failed creating new concept: " ++ e))
      | (st, Except.ok resp) =>
        if resp.status ≠ 200 ∧ resp.status ≠ 201 then
          (st, some ("failed creating new concept, returned status " ++ toString resp.status))
        else (st, none)

/-- The request URL `AddConceptMetadataField` builds: the concept URI is
wrapped in angle brackets and query-escaped twice before being spliced into
the unescaped `path` query parameter. -/
def addConceptMetadataURL (c : Client) (conceptId task : String) : URL :=
  { base := c.baseAPIURL.base
    rawQuery := "path=" ++ ("task:" ++ c.model ++ ":" ++ task ++ "/"
      ++ queryEscape (queryEscape ("<" ++ ( ConceptURIPrefix ++ "/" ++ conceptId) ++ ">"))) }

/-- The request body `AddConceptMetadataField` builds: `json.Marshal` of the
two-entry `map[string]string`. -/
def addConceptMetadataBody (conceptId fieldName fieldValue : String) : String :=
  marshalStringMap
    [("@id", ConceptURIPrefix ++ "/" ++ conceptId),
     ( MetadataFieldPrefix ++ "/" ++ fieldName, fieldValue)]

/-- Method `AddConceptMetadataField` from `client.go`. -/
def AddConceptMetadataField (env : Env) (c : Client)
    (conceptId fieldName fieldValue task : String) : RunState × Option String :=
  match makeAuthorizedRequest env c "POST" (addConceptMetadataURL c conceptId task)
      (addConceptMetadataBody conceptId fieldName fieldValue) with
  | (st, Except.error e) =>
    (st, some ("failed adding metadata to concept " ++ conceptId ++ ": " ++ e))
  | (st, Except.ok resp) =>
    if resp.status ≠ 200 ∧ resp.status ≠ 201 then
      (st, some ("failed adding metadata to concept " ++ conceptId
        ++ ", returned status " ++ toString resp.status))
    else (st, none)

/-- The request URL `GetConceptsWithCustomMetadata` builds:
`url.Values.Encode` emits the parameters in sorted key order
(`filters`, `path`, `properties`), each value query-escaped; the `path`
value itself comes from `path.Join` (plain slash-joining for these dot-free
segments). -/
def getConceptsURL (c : Client) (task field value : String) : URL :=
  { base := c.baseAPIURL.base
    rawQuery :=
      "filters=" ++ queryEscape ("subject(<" ++ field ++ ">=\"" ++ value ++ "\")")
      ++ "&path=" ++ queryEscape ("task:" ++ c.model ++ ":" ++ task
          ++ "/skos:Concept/meta:transitiveInstance")
      ++ "&properties=" ++ queryEscape "rdf:type,meta:displayName,[]" }

/-- Go decoding of the fields of a JSON object into
`struct { Graph []interface{} `json:"@graph"` }`: the last `@graph` member
wins, `null` leaves the value untouched, a non-array value is a decode
error, unknown keys are ignored. -/
def decodeGraphFields : List (String × JsonValue) → List JsonValue → Except String (List JsonValue)
  | [], acc => Except.ok acc
  | (k, v) :: rest, acc =>
    if k = "@graph" then
      match v with
      | JsonValue.arr xs => decodeGraphFields rest xs
      | JsonValue.null => decodeGraphFields rest acc
      | _ => Except.error "json: cannot unmarshal value into field @graph of type []interface"
    else decodeGraphFields rest acc

/-- Decoding a response body into the graph struct: the body must be valid
JSON; a JSON object is decoded field-wise (an absent `@graph` member decodes
to the empty nil graph); the top-level literal `null` is a no-op for Go's
decoder, succeeding with the nil graph; any other top-level value is a
decode error. -/
def decodeGraphBody : Option JsonValue → Except String (List JsonValue)
  | none => Except.error "invalid JSON body"
  | some (JsonValue.obj fs) => decodeGraphFields fs []
  | some JsonValue.null => Except.ok []
  | some _ => Except.error "cannot unmarshal non-object into struct"

/-- Method `GetConceptsWithCustomMetadata` from `client.go`: issues a GET with no
body and decodes the response's `@graph` array.  Note that the status code
of the response is never inspected. -/
def GetConceptsWithCustomMetadata (env : Env) (c : Client) (task field value : String) :
    RunState × Except String (List JsonValue) :=
  match makeAuthorizedRequest env c "GET" (getConceptsURL c task field value) "" with
  | (st, Except.error e) => (st, Except.error ("failed to make search request: " ++ e))
  | (st, Except.ok resp) =>
    match decodeGraphBody resp.body with
    | Except.error e => (st, Except.error ("failed to read search response: " ++ e))
    | Except.ok g => (st, Except.ok g)


/-! ## Test fixtures (concrete environments and clients for witnesses) -/

/-- A concrete client, as built by `NewClient` in the repository tests. -/
def testClient : Client :=
  { baseAPIURL := ⟨"https://cloud.smartlogic.com/sw/client/testClientID/api", ""⟩
    apiTokenURL := ⟨"https://cloud.smartlogic.com/token", ""⟩
    apiKey := "testAPIKey", model := "testModel", accessToken := "test_token" }

/-- A 200 token-endpoint response carrying `access_token`. -/
def testTokenResponse : Response :=
  ⟨200, some (JsonValue.obj [("access_token", JsonValue.str "fresh_token")])⟩

/-- An environment whose data endpoint always answers 401 and whose token
endpoint always succeeds. -/
def testEnv401 : Env :=
  ⟨fun _ => some ⟨401, none⟩, fun _ => some testTokenResponse⟩

/-- An environment whose data endpoint answers 401 once and then 200. -/
def testEnv401Then200 : Env :=
  ⟨fun n => if n = 0 then some ⟨401, none⟩ else some ⟨200, none⟩,
    fun _ => some testTokenResponse⟩

/-- An environment whose data endpoint always answers 500 with body `\x7b\x7d`. -/
def testEnv500 : Env :=
  ⟨fun _ => some ⟨500, some (JsonValue.obj [])⟩, fun _ => none⟩

/-- A valid concept fixture. -/
def testValidConcept : Concept :=
  { PrefLabel := "p", type := "t", SchemaObject := "s" }

/-- A valid, deprecated concept fixture. -/
def testDeprecatedConcept : Concept :=
  { PrefLabel := "p", type := "t", SchemaObject := "s", IsDeprecated := true }

/-- A concept fixture with no scheme reference. -/
def testEmptySchemaConcept : Concept :=
  { PrefLabel := "p", type := "t" }

/-- An invalid concept fixture: the preferred label is missing. -/
def testNoLabelConcept : Concept :=
  { type := "t", SchemaObject := "s" }

/-! ## Helper lemmas -/

theorem joinComma_mem_split {l : List String} {y : String} (h : y ∈ l) :
    ∃ p q, joinComma l = p ++ y ++ q := by
  induction l with
  | nil => cases h
  | cons x xs ih =>
    cases h with
    | head =>
      cases xs with
      | nil => exact ⟨"", "", by simp [joinComma]⟩
      | cons z zs =>
        exact ⟨"", "," ++ joinComma (z :: zs), by simp [joinComma, String.append_assoc]⟩
    | tail _ hmem =>
      obtain ⟨p, q, hpq⟩ := ih hmem
      cases xs with
      | nil => cases hmem
      | cons z zs =>
        exact ⟨x ++ "," ++ p, q, by simp [joinComma, hpq, String.append_assoc]⟩

theorem renderObj_mem_split {fs : List (String × String)} {kv : String × String} (h : kv ∈ fs) :
    ∃ p q, renderObj fs = p ++ renderEntry kv ++ q := by
  obtain ⟨p, q, hpq⟩ := joinComma_mem_split (List.mem_map_of_mem renderEntry h)
  exact ⟨"\x7b" ++ p, q ++ "\x7d", by simp [renderObj, hpq, String.append_assoc]⟩

theorem makeAuthorizedRequestLoop_requests_grow (env : Env) (method : String) (reqURL : URL) :
    ∀ (fuel : Nat) (bodyBytes : String) (st : RunState),
    ∃ l, (makeAuthorizedRequestLoop env method reqURL fuel bodyBytes st).1.requests
      = st.requests ++ l := by
  intro fuel
  induction fuel with
  | zero => exact fun bodyBytes st => ⟨[], by simp [makeAuthorizedRequestLoop]⟩
  | succ n ih =>
    intro bodyBytes st
    simp only [makeAuthorizedRequestLoop]
    split
    · exact ⟨_, rfl⟩
    · split
      · split
        · exact ⟨_, rfl⟩
        · obtain ⟨l, hl⟩ := ih _ _
          rw [hl]
          refine ⟨⟨method, reqURL, st.client.accessToken, bodyBytes⟩ :: l, ?_⟩
          simp [List.append_assoc]
      · exact ⟨_, rfl⟩

theorem makeAuthorizedRequest_first_request (env : Env) (c : Client) (method : String)
    (reqURL : URL) (body : String) :
    (makeAuthorizedRequest env c method reqURL body).1.requests.head?
      = some ⟨method, reqURL, c.accessToken, body⟩ := by
  simp only [makeAuthorizedRequest, MaxAccessFailures, makeAuthorizedRequestLoop]
  repeat' split
  all_goals rfl

theorem makeAuthorizedRequestLoop_client_frame (env : Env) (method : String) (reqURL : URL) :
    ∀ (fuel : Nat) (bodyBytes : String) (st : RunState),
    ((makeAuthorizedRequestLoop env method reqURL fuel bodyBytes st).1.client.baseAPIURL
        = st.client.baseAPIURL
      ∧ (makeAuthorizedRequestLoop env method reqURL fuel bodyBytes st).1.client.apiTokenURL
        = st.client.apiTokenURL
      ∧ (makeAuthorizedRequestLoop env method reqURL fuel bodyBytes st).1.client.apiKey
        = st.client.apiKey
      ∧ (makeAuthorizedRequestLoop env method reqURL fuel bodyBytes st).1.client.model
        = st.client.model)
    ∧ ((makeAuthorizedRequestLoop env method reqURL fuel bodyBytes st).1.client.accessToken
        = st.client.accessToken
      ∨ ∃ n, getAccessToken (env.tokenResp n)
          = Except.ok
            (makeAuthorizedRequestLoop env method reqURL fuel bodyBytes st).1.client.accessToken) := by
  intro fuel
  induction fuel with
  | zero => intro bodyBytes st; simp [makeAuthorizedRequestLoop]
  | succ n ih =>
    intro bodyBytes st
    simp only [makeAuthorizedRequestLoop]
    split
    · simp
    · split
      · split
        · simp
        · next tok htok =>
          obtain ⟨⟨hb, ht, hk, hm⟩, htok'⟩ := ih _ _
          refine ⟨⟨hb, ht, hk, hm⟩, ?_⟩
          rcases htok' with h | ⟨m, hm2⟩
          · exact Or.inr ⟨st.tokenCalls, by rw [h]; exact htok⟩
          · exact Or.inr ⟨m, hm2⟩
      · simp

/-! ## Claim theorems -/

/-- Claim C1: the Concept with PrefLabel "Test Pref Label", Type "Test Type",
SchemaObject "Test Concept Schema" and every other field unset serializes to
exactly the expected JSON-LD byte string, with no error. -/
theorem MarshalJSON_minimal_concept_exact :
    Concept.MarshalJSON
      { PrefLabel := "Test Pref Label", type := "Test Type",
        SchemaObject := "Test Concept Schema" }
      = Except.ok "\x7b\"skosxl:prefLabel\":[\x7b\"skosxl:literalForm\":[\x7b\"@value\":\"Test Pref Label\",\"@language\":\"en\"\x7d],\"@type\":[\"skosxl:Label\"]\x7d],\"@type\":[\"skos:Concept\",\"Test Type\"],\"skos:topConceptOf\":\x7b\"@id\":\"Test Concept Schema\"\x7d\x7d" := by
  rfl

/-- Claim C2: when the data endpoint answers 401 on every attempt and every
token exchange succeeds, `makeAuthorizedRequest` issues exactly 3 request
attempts and then returns the fatal auth error with no response. -/
theorem makeAuthorizedRequest_all_unauthorized (env : Env) (c : Client) (method : String)
    (reqURL : URL) (body : String)
    (hdata : ∀ n, ∃ r, env.dataResp n = some r ∧ r.status = 401)
    (htoken : ∀ n, ∃ t, getAccessToken (env.tokenResp n) = Except.ok t) :
    (makeAuthorizedRequest env c method reqURL body).1.requests.length = 3
    ∧ (makeAuthorizedRequest env c method reqURL body).2
        = Except.error "failed making request with valid access token" := by
  obtain ⟨r0, hd0, hs0⟩ := hdata 0
  obtain ⟨r1, hd1, hs1⟩ := hdata 1
  obtain ⟨r2, hd2, hs2⟩ := hdata 2
  obtain ⟨t0, ht0⟩ := htoken 0
  obtain ⟨t1, ht1⟩ := htoken 1
  obtain ⟨t2, ht2⟩ := htoken 2
  simp [makeAuthorizedRequest, MaxAccessFailures, makeAuthorizedRequestLoop,
    hd0, hs0, hd1, hs1, hd2, hs2, ht0, ht1, ht2]

/-- Claim C3 counterexample: at a concrete 401-then-200 environment the call
succeeds after one transparent re-authentication, but the retried attempt
does NOT carry the same body bytes: the first attempt sends the caller's
body `"b"` and the retry sends the empty body, because the first attempt
drained the caller's `*bytes.Buffer` before `http.NewRequestWithContext` was
called again on the same reader. -/
theorem makeAuthorizedRequest_retry_body_counterexample :
    (makeAuthorizedRequest testEnv401Then200 testClient "POST" ⟨"u", ""⟩ "b").1.requests.map
        HRequest.body = ["b", ""]
    ∧ (makeAuthorizedRequest testEnv401Then200 testClient "POST" ⟨"u", ""⟩ "b").2
        = Except.ok ⟨200, none⟩ :=
  ⟨rfl, rfl⟩

/-- Claim C3 (amended): when the data endpoint answers 401 on the first
attempt and a non-401 status on the second, `makeAuthorizedRequest` succeeds
transparently: it performs exactly one token exchange, stores the newly
acquired token, and retries the same method and URL with the new token,
returning the second response — but the retried request carries an empty
body, the caller's body bytes having been consumed when the first attempt
was sent. -/
theorem makeAuthorizedRequest_retry_once (env : Env) (c : Client) (method : String)
    (reqURL : URL) (body : String) (r0 r1 : Response) (t : String)
    (hd0 : env.dataResp 0 = some r0) (hs0 : r0.status = 401)
    (hd1 : env.dataResp 1 = some r1) (hs1 : r1.status ≠ 401)
    (ht : getAccessToken (env.tokenResp 0) = Except.ok t) :
    makeAuthorizedRequest env c method reqURL body
      = (⟨{ c with accessToken := t },
          [⟨method, reqURL, c.accessToken, body⟩, ⟨method, reqURL, t, ""⟩], 1⟩,
        Except.ok r1) := by
  simp [makeAuthorizedRequest, MaxAccessFailures, makeAuthorizedRequestLoop,
    hd0, hs0, hd1, hs1, ht]

/-- Claim C4: serialization omits the alt-label, description and identifier
keys when the corresponding `Concept` field is empty, omits the deprecated
key when `IsDeprecated` is false, and emits the deprecated key with value
`[true]` when `IsDeprecated` is true. -/
theorem conceptWireFields_optional_keys (c : Concept) :
    (c.AltLabels = [] → "skosxl:altLabel" ∉ (conceptWireFields c).map Prod.fst)
    ∧ (c.Description = "" →
        "http://www.ft.com/ontology/description" ∉ (conceptWireFields c).map Prod.fst)
    ∧ (c.TMEIdentifier = "" →
        "http://www.ft.com/ontology/TMEIdentifier" ∉ (conceptWireFields c).map Prod.fst)
    ∧ (c.FactsetIdentifier = "" →
        "http://www.ft.com/ontology/factsetIdentifier" ∉ (conceptWireFields c).map Prod.fst)
    ∧ (c.WikidataIdentifier = "" →
        "http://www.ft.com/ontology/wikidataIdentifier" ∉ (conceptWireFields c).map Prod.fst)
    ∧ (c.IsDeprecated = false →
        "http://www.ft.com/ontology/isDeprecated" ∉ (conceptWireFields c).map Prod.fst)
    ∧ (c.IsDeprecated = true →
        ("http://www.ft.com/ontology/isDeprecated", "[true]") ∈ conceptWireFields c) := by
  refine ⟨?_, ?_, ?_, ?_, ?_, ?_, ?_⟩ <;> intro h <;>
    simp [conceptWireFields, Concept.toInput, inputConcept.fieldList, h,
      renderArr, renderBool, joinComma]

/-- Claim C5: a Concept with an empty PrefLabel, or an empty Type, or both
SchemaObject and Broader empty, makes `CreateConcept` fail validation with an
error, issuing no data request and no token exchange. -/
theorem CreateConcept_invalid_concept (env : Env) (cl : Client) (c : Concept) (task : String)
    (h : c.PrefLabel = "" ∨ c.type = "" ∨ (c.SchemaObject = "" ∧ c.Broader = "")) :
    (CreateConcept env cl c task).1.requests = []
    ∧ (CreateConcept env cl c task).1.tokenCalls = 0
    ∧ ∃ e, (CreateConcept env cl c task).2 = some e := by
  simp only [CreateConcept]
  split_ifs with h1 h2 h3
  · exact ⟨rfl, rfl, _, rfl⟩
  · exact ⟨rfl, rfl, _, rfl⟩
  · exact ⟨rfl, rfl, _, rfl⟩
  · exfalso
    rcases h with h | h | ⟨hs, hb⟩
    · exact h1 h
    · exact h3 h
    · exact h2 ⟨hs, hb⟩

set_option maxRecDepth 16384 in
/-- Claim C6: `AddConceptMetadataField` for concept
`7bcfe07b-0fb1-49ce-a5fa-e51d5c01c3e0`, field `factsetIdentifier` and value
`0DR49W-E` issues a POST whose raw query is exactly
`path=task:<model>:<task>/` followed by the angle-bracketed concept URI
percent-encoded twice, and whose body maps `@id` to the concept URI and the
field URI to the raw value. -/
theorem AddConceptMetadataField_request_shape (env : Env) (cl : Client) (task : String) :
    (AddConceptMetadataField env cl "7bcfe07b-0fb1-49ce-a5fa-e51d5c01c3e0"
        "factsetIdentifier" "0DR49W-E" task).1.requests.head?
      = some ⟨"POST",
          ⟨cl.baseAPIURL.base,
            "path=task:" ++ cl.model ++ ":" ++ task
              ++ "/%253Chttp%253A%252F%252Fwww.ft.com%252Fthing%252F7bcfe07b-0fb1-49ce-a5fa-e51d5c01c3e0%253E"⟩,
          cl.accessToken,
          "\x7b\"@id\":\"http://www.ft.com/thing/7bcfe07b-0fb1-49ce-a5fa-e51d5c01c3e0\",\"http://www.ft.com/ontology/factsetIdentifier\":\"0DR49W-E\"\x7d"⟩ := by
  have hurl : addConceptMetadataURL cl "7bcfe07b-0fb1-49ce-a5fa-e51d5c01c3e0" task
      = ⟨cl.baseAPIURL.base,
          "path=task:" ++ cl.model ++ ":" ++ task
            ++ "/%253Chttp%253A%252F%252Fwww.ft.com%252Fthing%252F7bcfe07b-0fb1-49ce-a5fa-e51d5c01c3e0%253E"⟩ := by
    simp only [addConceptMetadataURL,
      show queryEscape (queryEscape ("<"
          ++ ( ConceptURIPrefix ++ "/" ++ "7bcfe07b-0fb1-49ce-a5fa-e51d5c01c3e0") ++ ">"))
        = "%253Chttp%253A%252F%252Fwww.ft.com%252Fthing%252F7bcfe07b-0fb1-49ce-a5fa-e51d5c01c3e0%253E"
        from rfl]
    congr 1
    simp only [String.append_assoc]
    rw [show ("/" : String)
        ++ "%253Chttp%253A%252F%252Fwww.ft.com%252Fthing%252F7bcfe07b-0fb1-49ce-a5fa-e51d5c01c3e0%253E"
        = "/%253Chttp%253A%252F%252Fwww.ft.com%252Fthing%252F7bcfe07b-0fb1-49ce-a5fa-e51d5c01c3e0%253E"
        from rfl]
    rw [← String.append_assoc "path=" "task:"]
    rfl
  have hbody : addConceptMetadataBody "7bcfe07b-0fb1-49ce-a5fa-e51d5c01c3e0"
      "factsetIdentifier" "0DR49W-E"
      = "\x7b\"@id\":\"http://www.ft.com/thing/7bcfe07b-0fb1-49ce-a5fa-e51d5c01c3e0\",\"http://www.ft.com/ontology/factsetIdentifier\":\"0DR49W-E\"\x7d" := by
    rfl
  have h := makeAuthorizedRequest_first_request env cl "POST"
    (addConceptMetadataURL cl "7bcfe07b-0fb1-49ce-a5fa-e51d5c01c3e0" task)
    (addConceptMetadataBody "7bcfe07b-0fb1-49ce-a5fa-e51d5c01c3e0" "factsetIdentifier" "0DR49W-E")
  rcases hma : makeAuthorizedRequest env cl "POST"
      (addConceptMetadataURL cl "7bcfe07b-0fb1-49ce-a5fa-e51d5c01c3e0" task)
      (addConceptMetadataBody "7bcfe07b-0fb1-49ce-a5fa-e51d5c01c3e0" "factsetIdentifier" "0DR49W-E")
    with ⟨st, res⟩
  rw [hma] at h
  cases res with
  | error e =>
    simp only [AddConceptMetadataField, hma]
    simpa [hurl, hbody] using h
  | ok resp =>
    simp only [AddConceptMetadataField, hma]
    split_ifs <;> simpa [hurl, hbody] using h

theorem decodeTokenFields_no_token (fs : List (String × JsonValue)) (acc : String)
    (h : fs.filter (fun kv => kv.1 == "access_token") = []) :
    decodeTokenFields fs acc = Except.ok acc := by
  induction fs generalizing acc with
  | nil => rfl
  | cons kv rest ih =>
    obtain ⟨k, v⟩ := kv
    rw [List.filter_cons] at h
    by_cases hk : k = "access_token"
    · rw [if_pos (by simp [hk])] at h
      exact absurd h (List.cons_ne_nil _ _)
    · rw [if_neg (by simp [hk])] at h
      simp only [decodeTokenFields]
      rw [if_neg hk]
      exact ih acc h

theorem decodeTokenFields_single (fs : List (String × JsonValue)) (s acc : String)
    (h : fs.filter (fun kv => kv.1 == "access_token")
      = [("access_token", JsonValue.str s)]) :
    decodeTokenFields fs acc = Except.ok s := by
  induction fs generalizing acc with
  | nil => simp at h
  | cons kv rest ih =>
    obtain ⟨k, v⟩ := kv
    rw [List.filter_cons] at h
    by_cases hk : k = "access_token"
    · subst hk
      rw [if_pos (by simp)] at h
      injection h with h1 h2
      have hv : v = JsonValue.str s := congrArg Prod.snd h1
      subst hv
      simp only [decodeTokenFields, if_pos rfl]
      exact decodeTokenFields_no_token rest s h2
    · rw [if_neg (by simp [hk])] at h
      simp only [decodeTokenFields]
      rw [if_neg hk]
      exact ih acc h

/-- Claim C7 counterexample: with the data endpoint answering 500 — a status
that is neither a success nor 401 — with body `\x7b\x7d`,
`GetConceptsWithCustomMetadata` returns a decoded empty graph and no error,
so the claim that every data operation surfaces such a status as an error is
false for this operation. -/
theorem GetConcepts_ignores_status_counterexample :
    (GetConceptsWithCustomMetadata testEnv500 testClient "testTask" "field" "value").2
      = Except.ok [] := by
  rfl

/-- Claim C7 (amended): `CreateConcept` and `AddConceptMetadataField` surface
a response status that is neither 200 nor 201 as an error carrying the status
code; `GetConceptsWithCustomMetadata` never inspects the status code and
returns the decoded `@graph` of the response body whatever the status. -/
theorem operation_non_success_status (env : Env) (cl : Client) :
    (∀ (c : Concept) (task body : String) (st : RunState) (resp : Response),
      c.PrefLabel ≠ "" → ¬(c.SchemaObject = "" ∧ c.Broader = "") → c.type ≠ "" →
      Concept.MarshalJSON c = Except.ok body →
      makeAuthorizedRequest env cl "POST" (createConceptURL cl task) body
        = (st, Except.ok resp) →
      resp.status ≠ 200 → resp.status ≠ 201 →
      (CreateConcept env cl c task).2
        = some ("failed creating new concept, returned status " ++ toString resp.status))
    ∧ (∀ (conceptId fieldName fieldValue task : String) (st : RunState) (resp : Response),
      makeAuthorizedRequest env cl "POST" (addConceptMetadataURL cl conceptId task)
          (addConceptMetadataBody conceptId fieldName fieldValue) = (st, Except.ok resp) →
      resp.status ≠ 200 → resp.status ≠ 201 →
      (AddConceptMetadataField env cl conceptId fieldName fieldValue task).2
        = some ("failed adding metadata to concept " ++ conceptId
            ++ ", returned status " ++ toString resp.status))
    ∧ (∀ (task field value : String) (st : RunState) (resp : Response) (g : List JsonValue),
      makeAuthorizedRequest env cl "GET" (getConceptsURL cl task field value) ""
        = (st, Except.ok resp) →
      decodeGraphBody resp.body = Except.ok g →
      (GetConceptsWithCustomMetadata env cl task field value).2 = Except.ok g) := by
  refine ⟨?_, ?_, ?_⟩
  · intro c task body st resp h1 h2 h3 hm hma hs1 hs2
    simp only [CreateConcept, if_neg h1, if_neg h2, if_neg h3, hm, hma]
    simp [hs1, hs2]
  · intro conceptId fieldName fieldValue task st resp hma hs1 hs2
    simp only [AddConceptMetadataField, hma]
    simp [hs1, hs2]
  · intro task field value st resp g hma hdec
    simp only [GetConceptsWithCustomMetadata, hma, hdec]

/-- Claim C8: `NewClient` fails with an error and no client whenever the
token endpoint yields a transport failure, a non-200 status, or an
undecodable body (invalid JSON, or a top-level value other than an object or
`null` — Go's decoder accepts a top-level `null` as a no-op, leaving the
zero-value empty token); a 200 response whose JSON object carries a string
`access_token` member yields a client storing exactly that token. -/
theorem NewClient_token_endpoint_behaviour (tokenR : Option Response) (baseCloudURL : URL)
    (clientID apiKey model : String) :
    (tokenR = none →
      ∃ e, NewClient tokenR baseCloudURL clientID apiKey model = Except.error e)
    ∧ (∀ r, tokenR = some r → r.status ≠ 200 →
      ∃ e, NewClient tokenR baseCloudURL clientID apiKey model = Except.error e)
    ∧ (∀ r, tokenR = some r → r.body = none →
      ∃ e, NewClient tokenR baseCloudURL clientID apiKey model = Except.error e)
    ∧ (∀ r j, tokenR = some r → r.body = some j → (∀ fs, j ≠ JsonValue.obj fs) →
      j ≠ JsonValue.null →
      ∃ e, NewClient tokenR baseCloudURL clientID apiKey model = Except.error e)
    ∧ (∀ r, tokenR = some r → r.status = 200 → r.body = some JsonValue.null →
      ∃ cl, NewClient tokenR baseCloudURL clientID apiKey model = Except.ok cl
        ∧ cl.accessToken = "")
    ∧ (∀ r fs s, tokenR = some r → r.status = 200 → r.body = some (JsonValue.obj fs) →
      fs.filter (fun kv => kv.1 == "access_token") = [("access_token", JsonValue.str s)] →
      ∃ cl, NewClient tokenR baseCloudURL clientID apiKey model = Except.ok cl
        ∧ cl.accessToken = s) := by
  refine ⟨?_, ?_, ?_, ?_, ?_, ?_⟩
  · intro h
    subst h
    exact ⟨_, rfl⟩
  · intro r hr hs
    subst hr
    simp [NewClient, getAccessToken, hs]
  · intro r hr hb
    subst hr
    by_cases hs : r.status = 200
    · simp [NewClient, getAccessToken, hs, hb, decodeTokenBody]
    · simp [NewClient, getAccessToken, hs]
  · intro r j hr hb hobj hnull
    subst hr
    by_cases hs : r.status = 200
    · simp only [NewClient, getAccessToken, hs, hb]
      cases j with
      | obj fs => exact absurd rfl (hobj fs)
      | null => exact absurd rfl hnull
      | bool b => exact ⟨_, rfl⟩
      | num n => exact ⟨_, rfl⟩
      | str s => exact ⟨_, rfl⟩
      | arr xs => exact ⟨_, rfl⟩
    · simp [NewClient, getAccessToken, hs]
  · intro r hr hs hb
    subst hr
    simp [NewClient, getAccessToken, hs, hb, decodeTokenBody]
  · intro r fs s hr hs hb hf
    subst hr
    simp [NewClient, getAccessToken, hs, hb, decodeTokenBody,
      decodeTokenFields_single fs s "" hf]

/-- Claim C9: serialization succeeds for every Concept value, and when
`SchemaObject` is empty the document still contains the scheme-reference
member `"skos:topConceptOf":\x7b"@id":""\x7d` — emitted, not omitted. -/
theorem MarshalJSON_total_and_empty_scheme (c : Concept) :
    (∃ s, Concept.MarshalJSON c = Except.ok s)
    ∧ (c.SchemaObject = "" → ∃ pre post,
        Concept.MarshalJSON c
          = Except.ok (pre ++ "\"skos:topConceptOf\":\x7b\"@id\":\"\"\x7d" ++ post)) := by
  constructor
  · exact ⟨_, rfl⟩
  · intro h
    have hmem : ("skos:topConceptOf", conceptID.render ⟨c.SchemaObject⟩)
        ∈ conceptWireFields c := by
      simp [conceptWireFields, Concept.toInput, inputConcept.fieldList]
    obtain ⟨p, q, hpq⟩ := renderObj_mem_split hmem
    refine ⟨p, q, ?_⟩
    rw [Concept.MarshalJSON, hpq, h]
    rfl

/-- Claim C10: across every execution of `makeAuthorizedRequest` the four
immutable client fields are preserved; the stored token is either untouched
or a token returned by a successful token exchange; and when the first
response is not a 401, or the first token exchange fails, the client —
stored token included — is left exactly as it was. -/
theorem makeAuthorizedRequest_client_mutation (env : Env) (c : Client) (method : String)
    (reqURL : URL) (body : String) :
    ((makeAuthorizedRequest env c method reqURL body).1.client.baseAPIURL = c.baseAPIURL
      ∧ (makeAuthorizedRequest env c method reqURL body).1.client.apiTokenURL = c.apiTokenURL
      ∧ (makeAuthorizedRequest env c method reqURL body).1.client.apiKey = c.apiKey
      ∧ (makeAuthorizedRequest env c method reqURL body).1.client.model = c.model)
    ∧ ((makeAuthorizedRequest env c method reqURL body).1.client.accessToken = c.accessToken
      ∨ ∃ n, getAccessToken (env.tokenResp n)
          = Except.ok (makeAuthorizedRequest env c method reqURL body).1.client.accessToken)
    ∧ (∀ r, env.dataResp 0 = some r → r.status ≠ 401 →
        (makeAuthorizedRequest env c method reqURL body).1.client = c)
    ∧ (∀ e, getAccessToken (env.tokenResp 0) = Except.error e →
        (makeAuthorizedRequest env c method reqURL body).1.client = c) := by
  refine ⟨?_, ?_, ?_, ?_⟩
  · exact (makeAuthorizedRequestLoop_client_frame env method reqURL MaxAccessFailures body
      ⟨c, [], 0⟩).1
  · exact (makeAuthorizedRequestLoop_client_frame env method reqURL MaxAccessFailures body
      ⟨c, [], 0⟩).2
  · intro r hr hs
    simp [makeAuthorizedRequest, MaxAccessFailures, makeAuthorizedRequestLoop, hr, hs]
  · intro e he
    simp only [makeAuthorizedRequest, MaxAccessFailures, makeAuthorizedRequestLoop]
    split
    · rfl
    · split
      · simp [he]
      · rfl

/-! ## Witnesses -/

/-- Witness for the C2 theorem: the always-401 environment satisfies its
hypotheses, and the call indeed stops after 3 attempts with the auth
error. -/
theorem makeAuthorizedRequest_all_unauthorized_witness :
    (makeAuthorizedRequest testEnv401 testClient "POST" ⟨"u", ""⟩ "b").1.requests.length = 3
    ∧ (makeAuthorizedRequest testEnv401 testClient "POST" ⟨"u", ""⟩ "b").2
        = Except.error "failed making request with valid access token" :=
  makeAuthorizedRequest_all_unauthorized testEnv401 testClient "POST" ⟨"u", ""⟩ "b"
    (fun _ => ⟨⟨401, none⟩, rfl, rfl⟩) (fun _ => ⟨"fresh_token", rfl⟩)

/-- Witness for the C3 theorem: with 401 then 200, the call re-authenticates
once and retries the same method and URL with the fresh token; the retried
attempt's body is empty, the buffer having been drained. -/
theorem makeAuthorizedRequest_retry_once_witness :
    makeAuthorizedRequest testEnv401Then200 testClient "POST" ⟨"u", ""⟩ "b"
      = (⟨{ testClient with accessToken := "fresh_token" },
          [⟨"POST", ⟨"u", ""⟩, "test_token", "b"⟩, ⟨"POST", ⟨"u", ""⟩, "fresh_token", ""⟩],
          1⟩,
        Except.ok ⟨200, none⟩) :=
  makeAuthorizedRequest_retry_once testEnv401Then200 testClient "POST" ⟨"u", ""⟩ "b"
    ⟨401, none⟩ ⟨200, none⟩ "fresh_token" rfl rfl rfl (by decide) rfl

/-- Witness for the C4 theorem at a deprecated concept with no optional
fields. -/
theorem conceptWireFields_optional_keys_witness :
    "skosxl:altLabel" ∉ (conceptWireFields testDeprecatedConcept).map Prod.fst
    ∧ ("http://www.ft.com/ontology/isDeprecated", "[true]")
        ∈ conceptWireFields testDeprecatedConcept :=
  ⟨(conceptWireFields_optional_keys testDeprecatedConcept).1 rfl,
    (conceptWireFields_optional_keys testDeprecatedConcept).2.2.2.2.2.2 rfl⟩

/-- Witness for the C5 theorem: a concept without a preferred label is
rejected before any network call. -/
theorem CreateConcept_invalid_concept_witness :
    (CreateConcept testEnv500 testClient testNoLabelConcept "task").1.requests = []
    ∧ (CreateConcept testEnv500 testClient testNoLabelConcept "task").1.tokenCalls = 0
    ∧ ∃ e, (CreateConcept testEnv500 testClient testNoLabelConcept "task").2 = some e :=
  CreateConcept_invalid_concept testEnv500 testClient testNoLabelConcept "task" (Or.inl rfl)

/-- Witness for the C7 theorem at the concrete 500-status environment. -/
theorem operation_non_success_status_witness :
    (CreateConcept testEnv500 testClient testValidConcept "task").2
      = some "failed creating new concept, returned status 500"
    ∧ (AddConceptMetadataField testEnv500 testClient "cid" "f" "v" "task").2
      = some "failed adding metadata to concept cid, returned status 500"
    ∧ (GetConceptsWithCustomMetadata testEnv500 testClient "task" "f" "v").2
      = Except.ok [] :=
  ⟨(operation_non_success_status testEnv500 testClient).1 testValidConcept "task" _ _
      ⟨500, some (JsonValue.obj [])⟩
      (by decide) (by decide) (by decide) rfl rfl (by decide) (by decide),
    (operation_non_success_status testEnv500 testClient).2.1 "cid" "f" "v" "task" _
      ⟨500, some (JsonValue.obj [])⟩ rfl (by decide) (by decide),
    (operation_non_success_status testEnv500 testClient).2.2 "task" "f" "v" _
      ⟨500, some (JsonValue.obj [])⟩ [] rfl rfl⟩

/-- Witness for the C8 theorem: a 401 token endpoint aborts construction,
while a 200 endpoint carrying `access_token` yields a client storing it. -/
theorem NewClient_token_endpoint_behaviour_witness :
    (∃ e, NewClient (some ⟨401, none⟩) ⟨"https://cloud.smartlogic.com", ""⟩
        "testClientID" "testAPIKey" "testModel" = Except.error e)
    ∧ ∃ cl, NewClient (some testTokenResponse) ⟨"https://cloud.smartlogic.com", ""⟩
        "testClientID" "testAPIKey" "testModel" = Except.ok cl
        ∧ cl.accessToken = "fresh_token" :=
  ⟨(NewClient_token_endpoint_behaviour (some ⟨401, none⟩)
      ⟨"https://cloud.smartlogic.com", ""⟩ "testClientID" "testAPIKey" "testModel").2.1
      ⟨401, none⟩ rfl (by decide),
    (NewClient_token_endpoint_behaviour (some testTokenResponse)
      ⟨"https://cloud.smartlogic.com", ""⟩ "testClientID" "testAPIKey" "testModel").2.2.2.2.2
      testTokenResponse [("access_token", JsonValue.str "fresh_token")] "fresh_token"
      rfl rfl rfl rfl⟩

/-- Witness for the C9 theorem at a concept with an empty scheme. -/
theorem MarshalJSON_total_and_empty_scheme_witness :
    (∃ s, Concept.MarshalJSON testEmptySchemaConcept = Except.ok s)
    ∧ ∃ pre post, Concept.MarshalJSON testEmptySchemaConcept
        = Except.ok (pre ++ "\"skos:topConceptOf\":\x7b\"@id\":\"\"\x7d" ++ post) :=
  ⟨(MarshalJSON_total_and_empty_scheme testEmptySchemaConcept).1,
    (MarshalJSON_total_and_empty_scheme testEmptySchemaConcept).2 rfl⟩

/-- Witness for the C10 theorem at a concrete environment and client. -/
theorem makeAuthorizedRequest_client_mutation_witness :
    ((makeAuthorizedRequest testEnv500 testClient "POST" ⟨"u", ""⟩ "b").1.client.baseAPIURL
        = testClient.baseAPIURL
      ∧ (makeAuthorizedRequest testEnv500 testClient "POST" ⟨"u", ""⟩ "b").1.client.apiTokenURL
        = testClient.apiTokenURL
      ∧ (makeAuthorizedRequest testEnv500 testClient "POST" ⟨"u", ""⟩ "b").1.client.apiKey
        = testClient.apiKey
      ∧ (makeAuthorizedRequest testEnv500 testClient "POST" ⟨"u", ""⟩ "b").1.client.model
        = testClient.model)
    ∧ ((makeAuthorizedRequest testEnv500 testClient "POST" ⟨"u", ""⟩ "b").1.client.accessToken
        = testClient.accessToken
      ∨ ∃ n, getAccessToken (testEnv500.tokenResp n)
          = Except.ok
            (makeAuthorizedRequest testEnv500 testClient "POST" ⟨"u", ""⟩ "b").1.client.accessToken)
    ∧ (∀ r, testEnv500.dataResp 0 = some r → r.status ≠ 401 →
        (makeAuthorizedRequest testEnv500 testClient "POST" ⟨"u", ""⟩ "b").1.client = testClient)
    ∧ (∀ e, getAccessToken (testEnv500.tokenResp 0) = Except.error e →
        (makeAuthorizedRequest testEnv500 testClient "POST" ⟨"u", ""⟩ "b").1.client
          = testClient) :=
  makeAuthorizedRequest_client_mutation testEnv500 testClient "POST" ⟨"u", ""⟩ "b"
